import Mathlib

/-!
Verification of the retrieval-and-answer workflow of tools/vector.py.

The file shallowly embeds the property-graph data model, the Cypher
RETRIEVAL_QUERY (lines 41-100 of tools/vector.py), the retriever
configuration (k = 3, score_threshold = 0.87, lines 129-132), and the
generate_response function (lines 23-37).  External collaborators
(the vector index, the langchain retriever filter and the stuff chain,
the language model) are modelled from the spec where noted.
-/

set_option autoImplicit false

namespace TikosRns

/-- Property graph node: identity, labels, and a property map
(association list from property name to value). -/
structure Node where
  id : Nat
  labels : List String
  props : List (String × String)
deriving DecidableEq, Repr

/-- Property graph relationship: identity, type, and endpoint node ids. -/
structure Rel where
  id : Nat
  relType : String
  startId : Nat
  endId : Nat
deriving DecidableEq, Repr

/-- A property graph, as stored in the external Neo4j database. -/
structure Graph where
  nodes : List Node
  rels : List Rel
deriving DecidableEq, Repr

/-- Property access: a missing property yields the empty string. -/
def Node.prop (nd : Node) (k : String) : String :=
  (List.lookup k nd.props).getD ""

/-- Cypher label test, as in: 'Company' IN labels(x). -/
def Node.hasLabel (nd : Node) (l : String) : Bool :=
  nd.labels.contains l

/-- The helper/intermediate node kinds excluded by the WHERE clause of
RETRIEVAL_QUERY, line 45: x:Resource|SplitText|Rns. -/
def excludedNode (nd : Node) : Bool :=
  nd.hasLabel "Resource" || nd.hasLabel "SplitText" || nd.hasLabel "Rns"

/-- Node lookup by id. -/
def Graph.node? (g : Graph) (i : Nat) : Option Node :=
  g.nodes.find? fun nd => decide (nd.id = i)

/-- The ordered list of recognized entity kinds and their display-label
properties, exactly the WHEN branches of the CASE expressions in
RETRIEVAL_QUERY (lines 53-67 and 71-85 of tools/vector.py). -/
def labelCases : List (String × String) :=
  [("Company", "company_name"),
   ("News", "headline_name"),
   ("NewsCategory", "category"),
   ("Date", "date"),
   ("Industry", "industry"),
   ("Sector", "sector"),
   ("SubSector", "subsector"),
   ("SuperSector", "supersector"),
   ("Tag", "tag_name"),
   ("Person", "person_name"),
   ("Organisation", "organisation_name"),
   ("Position", "position_name")]

/-- The display-label CASE expression of RETRIEVAL_QUERY (identical for
start and end nodes, lines 53-67 and 71-85): branches tried in order,
first matching label wins; the ELSE branch returns the empty Cypher map,
modelled here as none. -/
def caseLabel (nd : Node) : Option String :=
  if nd.hasLabel "Company" then some (nd.prop "company_name")
  else if nd.hasLabel "News" then some (nd.prop "headline_name")
  else if nd.hasLabel "NewsCategory" then some (nd.prop "category")
  else if nd.hasLabel "Date" then some (nd.prop "date")
  else if nd.hasLabel "Industry" then some (nd.prop "industry")
  else if nd.hasLabel "Sector" then some (nd.prop "sector")
  else if nd.hasLabel "SubSector" then some (nd.prop "subsector")
  else if nd.hasLabel "SuperSector" then some (nd.prop "supersector")
  else if nd.hasLabel "Tag" then some (nd.prop "tag_name")
  else if nd.hasLabel "Person" then some (nd.prop "person_name")
  else if nd.hasLabel "Organisation" then some (nd.prop "organisation_name")
  else if nd.hasLabel "Position" then some (nd.prop "position_name")
  else none

/-- First-match label lookup over an explicit case list; used to reason
about caseLabel uniformly. -/
def labelFromCases (cs : List (String × String)) (nd : Node) : Option String :=
  match cs with
  | [] => none
  | kp :: rest => if nd.hasLabel kp.1 then some (nd.prop kp.2) else labelFromCases rest nd

/-- The 6-tuple collected per traversed relationship by RETRIEVAL_QUERY
(lines 51-86): start id, start display label, relationship id,
relationship type, end id, end display label. -/
structure RelTuple where
  startId : Nat
  startLabel : Option String
  relId : Nat
  relType : String
  endId : Nat
  endLabel : Option String
deriving DecidableEq, Repr

/-- Build the 6-tuple from a relationship and its resolved start and end
nodes, as in lines 51-86 of RETRIEVAL_QUERY. -/
def tupleOf (rse : Rel × Node × Node) : RelTuple :=
  { startId := rse.2.1.id
    startLabel := caseLabel rse.2.1
    relId := rse.1.id
    relType := rse.1.relType
    endId := rse.2.2.id
    endLabel := caseLabel rse.2.2 }

/-- The active one-hop expansion of RETRIEVAL_QUERY, line 44:
MATCH path = (n)-[r*..1]-() with the WHERE clause of line 45 excluding
any path containing a Resource, SplitText or Rns node.  Each element is
a matched path: the relationship together with its start and end nodes
(the path runs between n and the other endpoint, in either direction). -/
def oneHop (g : Graph) (n : Node) : List (Rel × Node × Node) :=
  g.rels.filterMap fun r =>
    if r.startId = n.id then
      match g.node? r.endId with
      | some m => if excludedNode n || excludedNode m then none else some (r, n, m)
      | none => none
    else if r.endId = n.id then
      match g.node? r.startId with
      | some m => if excludedNode n || excludedNode m then none else some (r, m, n)
      | none => none
    else none

/-- Duplicate removal keeping first occurrences, with an accumulator of
already-seen elements; models Cypher DISTINCT. -/
def dedupAux {α : Type} [DecidableEq α] (seen : List α) : List α → List α
  | [] => []
  | a :: l => if a ∈ seen then dedupAux seen l else a :: dedupAux (a :: seen) l

/-- Duplicate removal keeping first occurrences (Cypher DISTINCT). -/
def dedupF {α : Type} [DecidableEq α] (l : List α) : List α :=
  dedupAux [] l

/-- The relslist aggregate of RETRIEVAL_QUERY (lines 48-86):
collect(DISTINCT tuple) over the one-hop paths from the parent node n. -/
def relsList (g : Graph) (n : Node) : List RelTuple :=
  dedupF ((oneHop g n).map tupleOf)

/-- The CHILD_OF relationships from the chunk to a given News node, as
re-matched by the pattern comprehensions of lines 94-95:
(node)-[:CHILD_OF]->(n:News). -/
def childOfToNews (g : Graph) (node n : Node) : List Rel :=
  g.rels.filter fun r =>
    decide (r.relType = "CHILD_OF" ∧ r.startId = node.id ∧ r.endId = n.id
      ∧ n.hasLabel "News" = true)

/-- The PUBLISHED_BY relationships leaving n, with their resolved target
node; the target carries no label requirement in the comprehension of
line 94 (the variable named Company is unconstrained). -/
def publishedByOf (g : Graph) (n : Node) : List (Rel × Node) :=
  g.rels.filterMap fun r =>
    if r.relType = "PUBLISHED_BY" ∧ r.startId = n.id then
      (g.node? r.endId).map fun m => (r, m)
    else none

/-- The company entry of the metadata map projection (line 94): one
company_name per pair of matching CHILD_OF and PUBLISHED_BY relationships. -/
def companyList (g : Graph) (node n : Node) : List String :=
  (childOfToNews g node n).flatMap fun _ =>
    (publishedByOf g n).map fun rm => rm.2.prop "company_name"

/-- The url entry of the metadata map projection (line 95): one n.url per
matching CHILD_OF relationship. -/
def urlList (g : Graph) (node n : Node) : List String :=
  (childOfToNews g node n).map fun _ => n.prop "url"

/-- The metadata map projection returned per row by RETRIEVAL_QUERY
(lines 91-97): score, split_id, company list, url list, and the
deduplicated relationship list.  Only the listed entries are projected. -/
structure Metadata where
  score : Rat
  split_id : String
  company : List String
  url : List String
  graph : List RelTuple
deriving DecidableEq, Repr

/-- A RETURN row of RETRIEVAL_QUERY (lines 88-97): the parent body text,
the similarity score, and the metadata record.  This is the context
bundle assembled per retained chunk. -/
structure Bundle where
  text : String
  score : Rat
  metadata : Metadata
deriving DecidableEq, Repr

/-- The metadata record for a chunk with parent News node n. -/
def mkMetadata (g : Graph) (node : Node) (score : Rat) (n : Node) : Metadata :=
  { score := score
    split_id := node.prop "split_id"
    company := companyList g node n
    url := urlList g node n
    graph := relsList g n }

/-- The first MATCH of RETRIEVAL_QUERY (line 42):
(node)-[:CHILD_OF]->(n:News)-[:PUBLISHED_BY]->(c:Company), enumerating
all (n, c) bindings for a given chunk node; one binding per pair of
matching relationships. -/
def parentMatches (g : Graph) (node : Node) : List (Node × Node) :=
  g.rels.flatMap fun r1 =>
    if r1.relType = "CHILD_OF" ∧ r1.startId = node.id then
      match g.node? r1.endId with
      | some n =>
        if n.hasLabel "News" then
          g.rels.filterMap fun r2 =>
            if r2.relType = "PUBLISHED_BY" ∧ r2.startId = n.id then
              match g.node? r2.endId with
              | some c => if c.hasLabel "Company" then some (n, c) else none
              | none => none
            else none
        else []
      | none => []
    else []

/-- The rows RETRIEVAL_QUERY produces for one index hit (a chunk node
with its similarity score): one row per (n, c) binding of the first
MATCH, aggregated over the one-hop paths; a binding whose second MATCH
finds no admissible path produces no row. -/
def queryRows (g : Graph) (node : Node) (score : Rat) : List Bundle :=
  (parentMatches g node).filterMap fun nc =>
    if (oneHop g nc.1).isEmpty then none
    else some { text := nc.1.prop "body"
                score := score
                metadata := mkMetadata g node score nc.1 }

/-- The similarity threshold configured on the retriever
(tools/vector.py line 131). -/
def scoreThreshold : Rat := mkRat 87 100

/-- The top-k configured on the retriever and the LIMIT of
RETRIEVAL_QUERY (lines 99 and 131). -/
def topK : Nat := 3

/-- The full output of RETRIEVAL_QUERY over the index hits:
RETURN DISTINCT then LIMIT 3 (lines 88-99).  The hits are the (node,
score) pairs produced by the external vector index for the query. -/
def retrievedBundles (g : Graph) (hits : List (Node × Rat)) : List Bundle :=
  (dedupF (hits.flatMap fun h => queryRows g h.1 h.2)).take topK

/-- Modelled from the spec: the retriever is built with search type
similarity_score_threshold (tools/vector.py lines 129-132); the langchain
retriever, which is external library code, keeps only documents whose
similarity score meets the configured 0.87 threshold. -/
def retainedBundles (g : Graph) (hits : List (Node × Rat)) : List Bundle :=
  (retrievedBundles g hits).filter fun b => decide (scoreThreshold ≤ b.score)

/-- Modelled from the spec: the stuff chain concatenates all retained
parent texts into the prompt context; the exact template is owned by the
external chain framework. -/
def contextOf (bs : List Bundle) : String :=
  String.intercalate "\n\n" (bs.map Bundle.text)

/-- Modelled from the spec: the prompt submitted to the language model is
the stuffed context plus the original query. -/
def stuffPrompt (ctx question : String) : String :=
  ctx ++ "\n\nQuestion: " ++ question

/-- The response mapping returned by the chain, from which
generate_response reads the answer entry (tools/vector.py line 37). -/
structure QAResponse where
  question : String
  answer : String
deriving DecidableEq, Repr

/-- Modelled from the spec: the RetrievalQA stuff chain built at
tools/vector.py lines 135-139 - retrieve the context bundles, stuff their
texts plus the question into the model prompt, and record the model's
generated text as the answer. The language model is the function llm. -/
def kg_qa (g : Graph) (hits : List (Node × Rat)) (llm : String → String)
    (question : String) : QAResponse :=
  { question := question
    answer := llm (stuffPrompt (contextOf (retainedBundles g hits)) question) }

/-- generate_response (tools/vector.py lines 23-37): call the chain on
the prompt and return the answer entry of the response, unchanged. -/
def generate_response (g : Graph) (hits : List (Node × Rat))
    (llm : String → String) (prompt : String) : String :=
  (kg_qa g hits llm prompt).answer

/-- Modelled from the spec: the fallible chain - embedding computation,
then the database roundtrip (index query and graph traversal), then model
invocation, each an external call that may fail; no failure is handled
(tools/vector.py contains no exception handling). -/
def kg_qaE {E : Type} (embed : String → Except E (List Rat))
    (search : List Rat → Except E (List Bundle))
    (llmE : String → Except E String) (question : String) :
    Except E QAResponse :=
  match embed question with
  | .error err => .error err
  | .ok v =>
    match search v with
    | .error err => .error err
    | .ok bs =>
      match llmE (stuffPrompt (contextOf bs) question) with
      | .error err => .error err
      | .ok a => .ok { question := question, answer := a }

/-- generate_response over the fallible chain: no exception is caught,
translated or retried (tools/vector.py lines 23-37 contain no handler). -/
def generate_responseE {E : Type} (embed : String → Except E (List Rat))
    (search : List Rat → Except E (List Bundle))
    (llmE : String → Except E String) (prompt : String) : Except E String :=
  match kg_qaE embed search llmE prompt with
  | .error err => .error err
  | .ok r => .ok r.answer

end TikosRns

namespace TikosRns

/-- Concrete chunk node (a SplitText node) used in witnesses. -/
def exChunk : Node :=
  { id := 1, labels := ["SplitText"], props := [("split_id", "s1")] }

/-- Concrete parent News node used in witnesses. -/
def exNews : Node :=
  { id := 2, labels := ["News"]
    props := [("headline_name", "H"), ("body", "BODY"), ("url", "U")] }

/-- Concrete Company node used in witnesses. -/
def exCompany : Node :=
  { id := 3, labels := ["Company"], props := [("company_name", "ACME")] }

/-- Concrete graph used in witnesses: chunk CHILD_OF news PUBLISHED_BY company. -/
def exG : Graph :=
  { nodes := [exChunk, exNews, exCompany]
    rels := [{ id := 10, relType := "CHILD_OF", startId := 1, endId := 2 },
             { id := 11, relType := "PUBLISHED_BY", startId := 2, endId := 3 }] }

/-- Concrete index hits with a score above the threshold. -/
def exHits : List (Node × Rat) := [(exChunk, mkRat 9 10)]

/-- Concrete index hits with a score below the threshold. -/
def exHitsLow : List (Node × Rat) := [(exChunk, mkRat 1 2)]

/-- The single relationship tuple collected for the example graph. -/
def exTuple : RelTuple :=
  { startId := 2, startLabel := some "H", relId := 11
    relType := "PUBLISHED_BY", endId := 3, endLabel := some "ACME" }

/-- The single context bundle assembled for the example graph. -/
def exBundle : Bundle :=
  { text := "BODY", score := mkRat 9 10
    metadata := { score := mkRat 9 10, split_id := "s1", company := ["ACME"]
                  url := ["U"], graph := [exTuple] } }

/-- Concrete graph with no parent chain for the chunk. -/
def exGNoParent : Graph := { nodes := [exChunk], rels := [] }

end TikosRns

namespace TikosRns

theorem mem_dedupAux {α : Type} [DecidableEq α] (a : α) :
    ∀ (l seen : List α), a ∈ dedupAux seen l ↔ a ∈ l ∧ a ∉ seen := by
  intro l
  induction l with
  | nil => intro seen; simp [dedupAux]
  | cons b l ih =>
    intro seen
    by_cases hb : b ∈ seen
    · rw [dedupAux, if_pos hb, ih]
      constructor
      · rintro ⟨h1, h2⟩; exact ⟨List.mem_cons_of_mem _ h1, h2⟩
      · rintro ⟨h1, h2⟩
        rcases List.mem_cons.mp h1 with h | h
        · exact absurd (h ▸ hb) h2
        · exact ⟨h, h2⟩
    · rw [dedupAux, if_neg hb]
      simp only [List.mem_cons, ih, List.mem_cons]
      constructor
      · rintro (rfl | ⟨h1, h2⟩)
        · exact ⟨Or.inl rfl, hb⟩
        · exact ⟨Or.inr h1, fun hs => h2 (Or.inr hs)⟩
      · rintro ⟨rfl | h1, h2⟩
        · exact Or.inl rfl
        · by_cases hab : a = b
          · exact Or.inl hab
          · exact Or.inr ⟨h1, fun hs => (hs.elim hab h2)⟩

theorem mem_dedupF {α : Type} [DecidableEq α] (a : α) (l : List α) :
    a ∈ dedupF l ↔ a ∈ l := by
  rw [dedupF, mem_dedupAux]; simp

theorem nodup_dedupAux {α : Type} [DecidableEq α] :
    ∀ (l seen : List α), (dedupAux seen l).Nodup := by
  intro l
  induction l with
  | nil => intro seen; simp [dedupAux]
  | cons b l ih =>
    intro seen
    by_cases hb : b ∈ seen
    · rw [dedupAux, if_pos hb]; exact ih seen
    · rw [dedupAux, if_neg hb]
      refine List.nodup_cons.mpr ⟨?_, ih (b :: seen)⟩
      intro hmem
      exact ((mem_dedupAux b l (b :: seen)).mp hmem).2 (List.mem_cons_self b seen)

theorem nodup_dedupF {α : Type} [DecidableEq α] (l : List α) :
    (dedupF l).Nodup :=
  nodup_dedupAux l []

theorem node?_id {g : Graph} {i : Nat} {m : Node} (h : g.node? i = some m) :
    m.id = i := by
  have := List.find?_some h
  simpa using this

theorem oneHop_mem {g : Graph} {n : Node} {r : Rel} {s e : Node}
    (h : (r, s, e) ∈ oneHop g n) :
    r ∈ g.rels ∧ (r.startId = n.id ∨ r.endId = n.id) ∧
      excludedNode s = false ∧ excludedNode e = false ∧
      s.id = r.startId ∧ e.id = r.endId := by
  rcases List.mem_filterMap.mp h with ⟨r', hr', hf⟩
  by_cases h1 : r'.startId = n.id
  · rw [if_pos h1] at hf
    rcases hm : g.node? r'.endId with _ | m
    · simp only [hm] at hf; simp at hf
    · simp only [hm] at hf
      by_cases hex : (excludedNode n || excludedNode m) = true
      · rw [if_pos hex] at hf; simp at hf
      · rw [if_neg hex] at hf
        simp only [Option.some.injEq, Prod.mk.injEq] at hf
        obtain ⟨rfl, rfl, rfl⟩ := hf
        simp only [Bool.or_eq_true, not_or, Bool.not_eq_true] at hex
        exact ⟨hr', Or.inl h1, hex.1, hex.2, h1.symm ▸ rfl, (node?_id hm).symm ▸ rfl⟩
  · rw [if_neg h1] at hf
    by_cases h2 : r'.endId = n.id
    · rw [if_pos h2] at hf
      rcases hm : g.node? r'.startId with _ | m
      · simp only [hm] at hf; simp at hf
      · simp only [hm] at hf
        by_cases hex : (excludedNode n || excludedNode m) = true
        · rw [if_pos hex] at hf; simp at hf
        · rw [if_neg hex] at hf
          simp only [Option.some.injEq, Prod.mk.injEq] at hf
          obtain ⟨rfl, rfl, rfl⟩ := hf
          simp only [Bool.or_eq_true, not_or, Bool.not_eq_true] at hex
          exact ⟨hr', Or.inr h2, hex.2, hex.1, (node?_id hm).symm ▸ rfl, h2.symm ▸ rfl⟩
    · rw [if_neg h2] at hf; simp at hf

theorem queryRows_mem {g : Graph} {node : Node} {score : Rat} {b : Bundle}
    (h : b ∈ queryRows g node score) :
    ∃ nc, nc ∈ parentMatches g node ∧ oneHop g nc.1 ≠ [] ∧
      b = { text := nc.1.prop "body", score := score,
            metadata := mkMetadata g node score nc.1 } := by
  rcases List.mem_filterMap.mp h with ⟨nc, hnc, hf⟩
  by_cases he : (oneHop g nc.1).isEmpty = true
  · rw [if_pos he] at hf; simp at hf
  · rw [if_neg he] at hf
    simp only [Option.some.injEq] at hf
    refine ⟨nc, hnc, ?_, hf.symm⟩
    simpa [List.isEmpty_iff] using he

theorem retrievedBundles_mem {g : Graph} {hits : List (Node × Rat)} {b : Bundle}
    (h : b ∈ retrievedBundles g hits) :
    ∃ ns, ns ∈ hits ∧ b ∈ queryRows g ns.1 ns.2 := by
  have h1 : b ∈ dedupF (hits.flatMap fun h => queryRows g h.1 h.2) :=
    List.take_subset _ _ h
  rw [mem_dedupF] at h1
  exact List.mem_flatMap.mp h1

theorem retainedBundles_mem {g : Graph} {hits : List (Node × Rat)} {b : Bundle}
    (h : b ∈ retainedBundles g hits) :
    b ∈ retrievedBundles g hits ∧ scoreThreshold ≤ b.score := by
  have h1 := List.mem_filter.mp h
  exact ⟨h1.1, of_decide_eq_true h1.2⟩

theorem caseLabel_eq_cases (nd : Node) :
    caseLabel nd = labelFromCases labelCases nd := rfl

theorem labelFromCases_eq_some (nd : Node) (k p : String) :
    ∀ cs : List (String × String), (k, p) ∈ cs → nd.hasLabel k = true →
    (∀ kp, kp ∈ cs → nd.hasLabel kp.1 = true → kp = (k, p)) →
    labelFromCases cs nd = some (nd.prop p) := by
  intro cs
  induction cs with
  | nil => intro hmem; simp at hmem
  | cons a rest ih =>
    intro hmem hk huniq
    by_cases ha : nd.hasLabel a.1 = true
    · have hakp : a = (k, p) := huniq a (List.mem_cons_self a rest) ha
      subst hakp
      simp [labelFromCases, ha]
    · have hrest : (k, p) ∈ rest := by
        rcases List.mem_cons.mp hmem with h | h
        · exact absurd (h ▸ hk) ha
        · exact h
      rw [labelFromCases, if_neg (by simpa using ha)]
      exact ih hrest hk fun kp hkp => huniq kp (List.mem_cons_of_mem a hkp)

theorem labelFromCases_eq_none (nd : Node) :
    ∀ cs : List (String × String),
    (∀ kp, kp ∈ cs → nd.hasLabel kp.1 = false) →
    labelFromCases cs nd = none := by
  intro cs
  induction cs with
  | nil => intro _; rfl
  | cons a rest ih =>
    intro hnone
    rw [labelFromCases, if_neg (by simp [hnone a (List.mem_cons_self a rest)])]
    exact ih fun kp hkp => hnone kp (List.mem_cons_of_mem a hkp)

end TikosRns

namespace TikosRns

/-- C1: for every query string passed to generate_response, the returned
value is exactly the answer produced by the retrieval-QA chain for that
query - the language model's generated text - with no local
transformation of the text. -/
theorem generate_response_verbatim (g : Graph) (hits : List (Node × Rat))
    (llm : String → String) (prompt : String) :
    generate_response g hits llm prompt = (kg_qa g hits llm prompt).answer ∧
    generate_response g hits llm prompt
      = llm (stuffPrompt (contextOf (retainedBundles g hits)) prompt) :=
  ⟨rfl, rfl⟩

/-- C2: at most 3 context bundles are assembled per query (both the raw
query output and the retained bundles), and every bundle retained for the
chain has similarity score at least 0.87. -/
theorem bundles_le_three_and_threshold (g : Graph) (hits : List (Node × Rat)) :
    (retrievedBundles g hits).length ≤ 3 ∧
    (retainedBundles g hits).length ≤ 3 ∧
    ∀ b ∈ retainedBundles g hits, scoreThreshold ≤ b.score := by
  have h3 : (retrievedBundles g hits).length ≤ 3 := by
    rw [retrievedBundles, List.length_take]
    exact Nat.min_le_left _ _
  refine ⟨h3, le_trans ?_ h3, ?_⟩
  · exact List.length_filter_le _ _
  · intro b hb
    exact (retainedBundles_mem hb).2

theorem bundles_le_three_and_threshold_witness :
    scoreThreshold ≤ exBundle.score :=
  (bundles_le_three_and_threshold exG exHits).2.2 exBundle (by decide)

/-- C3: the relationship list attached to any assembled bundle's metadata
contains no duplicate 6-tuples. -/
theorem bundle_graph_nodup (g : Graph) (hits : List (Node × Rat)) :
    ∀ b ∈ retrievedBundles g hits, b.metadata.graph.Nodup := by
  intro b hb
  rcases retrievedBundles_mem hb with ⟨ns, hns, hq⟩
  rcases queryRows_mem hq with ⟨nc, hnc, hne, rfl⟩
  exact nodup_dedupF _

theorem bundle_graph_nodup_witness : exBundle.metadata.graph.Nodup :=
  bundle_graph_nodup exG exHits exBundle (by decide)

/-- C4: display-label lookup for tuple endpoints.  Both endpoint labels
of every tuple are computed by the caseLabel lookup; a node whose only
recognized entity kind is k gets that kind's specific attribute as its
display label, and a node with no recognized kind gets the empty label
(the empty Cypher map, modelled as none). -/
theorem display_label_lookup :
    (∀ rse : Rel × Node × Node,
      (tupleOf rse).startLabel = caseLabel rse.2.1 ∧
      (tupleOf rse).endLabel = caseLabel rse.2.2) ∧
    (∀ (nd : Node) (k p : String), (k, p) ∈ labelCases →
      nd.hasLabel k = true →
      (∀ kp, kp ∈ labelCases → nd.hasLabel kp.1 = true → kp = (k, p)) →
      caseLabel nd = some (nd.prop p)) ∧
    (∀ nd : Node, (∀ kp, kp ∈ labelCases → nd.hasLabel kp.1 = false) →
      caseLabel nd = none) := by
  refine ⟨fun rse => ⟨rfl, rfl⟩, ?_, ?_⟩
  · intro nd k p hmem hk huniq
    rw [caseLabel_eq_cases]
    exact labelFromCases_eq_some nd k p labelCases hmem hk huniq
  · intro nd hnone
    rw [caseLabel_eq_cases]
    exact labelFromCases_eq_none nd labelCases hnone

theorem display_label_lookup_witness :
    caseLabel exNews = some (exNews.prop "headline_name") ∧
    caseLabel exChunk = none :=
  ⟨display_label_lookup.2.1 exNews "News" "headline_name" (by decide)
    (by decide) (by decide),
   display_label_lookup.2.2 exChunk (by decide)⟩

/-- C5: the active graph expansion is one hop: every bundle's
relationship list is the relsList of its parent News node, and every
tuple in it comes from a relationship directly incident to that parent
node - a path of length 1 starting at the parent document. -/
theorem one_hop_expansion (g : Graph) (hits : List (Node × Rat)) :
    ∀ b ∈ retrievedBundles g hits, ∃ node n,
      (∃ score c, (node, score) ∈ hits ∧ (n, c) ∈ parentMatches g node) ∧
      b.metadata.graph = relsList g n ∧
      ∀ t ∈ b.metadata.graph, ∃ r, r ∈ g.rels ∧ t.relId = r.id ∧
        (r.startId = n.id ∨ r.endId = n.id) := by
  intro b hb
  rcases retrievedBundles_mem hb with ⟨ns, hns, hq⟩
  rcases queryRows_mem hq with ⟨nc, hnc, hne, rfl⟩
  refine ⟨ns.1, nc.1, ⟨ns.2, nc.2, hns, hnc⟩, rfl, ?_⟩
  intro t ht
  have ht2 : t ∈ (oneHop g nc.1).map tupleOf := (mem_dedupF t _).mp ht
  rcases List.mem_map.mp ht2 with ⟨⟨r, s, e⟩, hrse, rfl⟩
  have hm := oneHop_mem hrse
  exact ⟨r, hm.1, rfl, hm.2.1⟩

theorem one_hop_expansion_witness :
    ∃ node n,
      (∃ score c, (node, score) ∈ exHits ∧ (n, c) ∈ parentMatches exG node) ∧
      exBundle.metadata.graph = relsList exG n ∧
      ∀ t ∈ exBundle.metadata.graph, ∃ r, r ∈ exG.rels ∧ t.relId = r.id ∧
        (r.startId = n.id ∨ r.endId = n.id) :=
  one_hop_expansion exG exHits exBundle (by decide)

/-- C6: no Resource, SplitText or Rns node ever appears as an endpoint of
a relationship tuple in any bundle's metadata: every tuple's endpoints
are the two nodes of its matched path, and both are non-excluded. -/
theorem no_excluded_endpoints (g : Graph) (hits : List (Node × Rat)) :
    ∀ b ∈ retrievedBundles g hits, ∀ t ∈ b.metadata.graph,
      ∃ s e : Node, s.id = t.startId ∧ e.id = t.endId ∧
        t.startLabel = caseLabel s ∧ t.endLabel = caseLabel e ∧
        excludedNode s = false ∧ excludedNode e = false := by
  intro b hb t ht
  rcases retrievedBundles_mem hb with ⟨ns, hns, hq⟩
  rcases queryRows_mem hq with ⟨nc, hnc, hne, rfl⟩
  have ht2 : t ∈ (oneHop g nc.1).map tupleOf := (mem_dedupF t _).mp ht
  rcases List.mem_map.mp ht2 with ⟨⟨r, s, e⟩, hrse, rfl⟩
  have hm := oneHop_mem hrse
  exact ⟨s, e, rfl, rfl, rfl, rfl, hm.2.2.1, hm.2.2.2.1⟩

theorem no_excluded_endpoints_witness :
    ∃ s e : Node, s.id = exTuple.startId ∧ e.id = exTuple.endId ∧
      exTuple.startLabel = caseLabel s ∧ exTuple.endLabel = caseLabel e ∧
      excludedNode s = false ∧ excludedNode e = false :=
  no_excluded_endpoints exG exHits exBundle (by decide) exTuple (by decide)

/-- C7: every retained bundle consists of the parent document's body
text, the chunk's similarity score, and a metadata record with the chunk
identifier (split_id), the related organization names, the source urls,
and the deduplicated relationship list. -/
theorem bundle_shape (g : Graph) (hits : List (Node × Rat)) :
    ∀ b ∈ retainedBundles g hits, ∃ node score n c,
      (node, score) ∈ hits ∧ (n, c) ∈ parentMatches g node ∧
      b.text = n.prop "body" ∧ b.score = score ∧
      b.metadata = { score := score, split_id := node.prop "split_id",
                     company := companyList g node n, url := urlList g node n,
                     graph := relsList g n } := by
  intro b hb
  rcases retrievedBundles_mem (retainedBundles_mem hb).1 with ⟨ns, hns, hq⟩
  rcases queryRows_mem hq with ⟨nc, hnc, hne, rfl⟩
  exact ⟨ns.1, ns.2, nc.1, nc.2, hns, hnc, rfl, rfl, rfl⟩

theorem bundle_shape_witness :
    ∃ node score n c,
      (node, score) ∈ exHits ∧ (n, c) ∈ parentMatches exG node ∧
      exBundle.text = n.prop "body" ∧ exBundle.score = score ∧
      exBundle.metadata
        = { score := score, split_id := node.prop "split_id",
            company := companyList exG node n, url := urlList exG node n,
            graph := relsList exG n } :=
  bundle_shape exG exHits exBundle (by decide)

/-- C8: any failure in embedding computation, the database query, or
model invocation propagates unchanged to the caller; no exception is
caught, translated or retried and no partial result is returned, while a
fully successful run returns the model's answer. -/
theorem error_propagation {E : Type} (embed : String → Except E (List Rat))
    (search : List Rat → Except E (List Bundle))
    (llmE : String → Except E String) (prompt : String) :
    (∀ err, embed prompt = .error err →
      generate_responseE embed search llmE prompt = .error err) ∧
    (∀ v err, embed prompt = .ok v → search v = .error err →
      generate_responseE embed search llmE prompt = .error err) ∧
    (∀ v bs err, embed prompt = .ok v → search v = .ok bs →
      llmE (stuffPrompt (contextOf bs) prompt) = .error err →
      generate_responseE embed search llmE prompt = .error err) ∧
    (∀ v bs a, embed prompt = .ok v → search v = .ok bs →
      llmE (stuffPrompt (contextOf bs) prompt) = .ok a →
      generate_responseE embed search llmE prompt = .ok a) := by
  refine ⟨?_, ?_, ?_, ?_⟩ <;> (intros; simp_all [generate_responseE, kg_qaE])

theorem error_propagation_witness :
    generate_responseE (E := String) (fun _ => .error "boom")
      (fun _ => .ok []) (fun s => .ok s) "q" = .error "boom" :=
  (error_propagation (fun _ => .error "boom") (fun _ => .ok [])
    (fun s => .ok s) "q").1 "boom" rfl

/-- C9: for a query where no index hit meets the similarity threshold,
zero context bundles are retained, and generate_response still completes,
returning the answer the language model produces from the empty
context. -/
theorem empty_retrieval_ok (g : Graph) (hits : List (Node × Rat))
    (llm : String → String) (prompt : String)
    (hlow : ∀ ns ∈ hits, ns.2 < scoreThreshold) :
    retainedBundles g hits = [] ∧
    generate_response g hits llm prompt
      = llm (stuffPrompt (contextOf []) prompt) := by
  have hempty : retainedBundles g hits = [] := by
    rw [retainedBundles, List.filter_eq_nil_iff]
    intro b hb
    rcases retrievedBundles_mem hb with ⟨ns, hns, hq⟩
    rcases queryRows_mem hq with ⟨nc, hnc, hne, rfl⟩
    simp only [decide_eq_true_eq]
    exact not_le.mpr (hlow ns hns)
  refine ⟨hempty, ?_⟩
  simp only [generate_response, kg_qa, hempty]

theorem empty_retrieval_ok_witness :
    retainedBundles exG exHitsLow = [] ∧
    generate_response exG exHitsLow id "q" = id (stuffPrompt (contextOf []) "q") :=
  empty_retrieval_ok exG exHitsLow id "q" (by decide)

/-- C10: a chunk contributes a bundle only through the
CHILD_OF-to-News-PUBLISHED_BY-to-Company chain: with no such chain the
chunk produces no rows, so a query can yield fewer bundles than the
number of chunks meeting the similarity threshold (concretely: one hit
above threshold, zero bundles). -/
theorem parent_chain_required :
    (∀ (g : Graph) (node : Node) (score : Rat),
      parentMatches g node = [] → queryRows g node score = []) ∧
    (∀ ns ∈ exHits, scoreThreshold ≤ ns.2) ∧
    (retainedBundles exGNoParent exHits).length < exHits.length := by
  refine ⟨?_, by decide, by decide⟩
  intro g node score h
  simp [queryRows, h]

theorem parent_chain_required_witness :
    parentMatches exGNoParent exChunk = [] ∧
    queryRows exGNoParent exChunk (mkRat 9 10) = [] :=
  ⟨rfl, parent_chain_required.1 exGNoParent exChunk (mkRat 9 10) rfl⟩

end TikosRns
